import Mathlib

/-!
Verification development for the NanoClaw core (src/index.ts, core part:
class NanoClawCore). The definitions below are a shallow embedding of the
message-dispatch loop, the per-group invocation runner processGroupMessages,
and the persisted cursor state. External collaborators that are not part of
the sources (the SQLite store in db.ts, the router formatter in router.ts,
the configuration constants in config.js, the group queue and the container
runner) are modelled from the spec as explicit data, function parameters and
trace actions.
-/

set_option maxRecDepth 8000

namespace Nanoclaw

/-- A chat message row as delivered by the message store to the core
(the NewMessage shape used by core.ts). Timestamps are ISO-8601 strings,
compared lexicographically. -/
structure NewMessage where
  id : String
  chat_jid : String
  sender_name : String
  content : String
  timestamp : String
deriving DecidableEq

/-- A registered group (the RegisteredGroup shape used by core.ts).
The requiresTrigger field is optional in the source; `none` models
`undefined`, so the source's test `requiresTrigger !== false` becomes
`requiresTrigger ≠ some false`. -/
structure RegisteredGroup where
  name : String
  folder : String
  trigger : String
  added_at : String
  requiresTrigger : Option Bool
deriving DecidableEq

/-- Lexicographic comparison of char lists by code point; models the
JavaScript `<` comparison on the (ASCII) timestamp strings that the store
uses in its `timestamp > ?` queries. -/
def charsLt : List Char → List Char → Bool
  | [], [] => false
  | [], _ :: _ => true
  | _ :: _, [] => false
  | a :: as, b :: bs =>
    if a.toNat < b.toNat then true
    else if b.toNat < a.toNat then false
    else charsLt as bs

/-- String comparison used for message timestamps. -/
def strLt (a b : String) : Bool := charsLt a.data b.data

/-- JavaScript String.prototype.trim: drop whitespace from both ends. -/
def jsTrim (s : String) : String :=
  ⟨((s.data.dropWhile Char.isWhitespace).reverse.dropWhile Char.isWhitespace).reverse⟩

/-- The characters of the opening internal marker. -/
def tagOpenL : List Char := "<internal>".data

/-- The characters of the closing internal marker. -/
def tagCloseL : List Char := "</internal>".data

/-- Scan for the first occurrence of the closing internal marker; on success
return the characters after it (the regex's lazy `[\s\S]*?` stops at the
first closing marker). -/
def dropAfterClose : List Char → Option (List Char)
  | [] => none
  | c :: rest =>
    if tagCloseL.isPrefixOf (c :: rest) then some ((c :: rest).drop tagCloseL.length)
    else dropAfterClose rest

/-- One left-to-right pass of the global regex replace
`raw.replace(/<internal>[\s\S]*?<\/internal>/g, '')` from core.ts line 241.
At each position: if the opening marker starts here and a closing marker
follows, the minimal span is removed and scanning resumes after it;
otherwise the character is kept. The fuel argument is the remaining input
length: every recursive call strictly shortens the list, so the fuel is
never exhausted on `stripInternal`'s call pattern. -/
def stripAux : Nat → List Char → List Char
  | 0, l => l
  | _ + 1, [] => []
  | fuel + 1, c :: rest =>
    if tagOpenL.isPrefixOf (c :: rest) then
      match dropAfterClose ((c :: rest).drop tagOpenL.length) with
      | some after => stripAux fuel after
      | none => c :: stripAux fuel rest
    else c :: stripAux fuel rest

/-- Remove every `<internal>...</internal>` span (core.ts line 241). -/
def stripInternal (s : String) : String := ⟨stripAux s.data.length s.data⟩

/-- Association-list lookup keyed by strings: models indexing a plain JS
object (`record[key]`, undefined when absent). -/
def alookup {α : Type} : List (String × α) → String → Option α
  | [], _ => none
  | (k', v) :: rest, k => if k' = k then some v else alookup rest k

/-- Association-list update: models `record[key] = value`. -/
def aset {α : Type} : List (String × α) → String → α → List (String × α)
  | [], k, v => [(k, v)]
  | (k', v') :: rest, k, v =>
    if k' = k then (k, v) :: rest else (k', v') :: aset rest k v

/-- Modelled from the spec: db.ts is not under src/. `getMessagesSince` is
the backlog query — the messages of the chat with timestamp strictly
greater than the cursor, in store order (spec glossary: "Backlog: the set
of messages for a group with timestamp greater than its lastAgentTimestamp").
The exclusion of the assistant's own messages is abstracted away: the store
list is taken to already contain only peer messages. -/
def getMessagesSince (db : List NewMessage) (chat since : String) : List NewMessage :=
  db.filter (fun m => m.chat_jid == chat && strLt since m.timestamp)

/-- Modelled from the spec: db.ts is not under src/. `getNewMessages`
fetches all messages newer than the global cursor across the registered
groups and reports the newest fetched timestamp (spec section 4.2 steps 1
and 2). -/
def getNewMessages (db : List NewMessage) (jids : List String) (lastTs : String) :
    List NewMessage × String :=
  let msgs := db.filter (fun m => jids.contains m.chat_jid && strLt lastTs m.timestamp)
  (msgs, msgs.foldl (fun acc m => if strLt acc m.timestamp then m.timestamp else acc) lastTs)

/-- Modelled from the spec: router.ts is not under src/. `formatMessages`
renders a batch of messages into the single prompt/forward text; the spec
fixes no concrete format, only that the text is built from the given batch,
so a simple line-per-message rendering is used. -/
def formatMessages (ms : List NewMessage) : String :=
  String.intercalate "\n" (ms.map (fun m => "[" ++ m.timestamp ++ "] " ++ m.sender_name ++ ": " ++ m.content))

/-- Partition a fetched batch by chat jid, preserving first-seen chat order
and per-chat message order (the Map-building loop of core.ts lines 368-376). -/
def groupByChat (msgs : List NewMessage) : List (String × List NewMessage) :=
  msgs.foldl
    (fun acc m =>
      match alookup acc m.chat_jid with
      | some existing => aset acc m.chat_jid (existing ++ [m])
      | none => acc ++ [(m.chat_jid, [m])])
    []

/-- The timestamp of the last message of a batch
(`messages[messages.length - 1].timestamp`); "" on an empty batch, which
the source never queries. -/
def lastTimestampOf : List NewMessage → String
  | [] => ""
  | [m] => m.timestamp
  | _ :: m :: rest => lastTimestampOf (m :: rest)

/-- The in-memory state of NanoClawCore together with a structured mirror of
the durable router_state rows. The `persisted` fields model what the store
durably holds for the two cursors; `CoreState.saveState` copies the in-memory
values into them, exactly as the source's saveState writes both keys. -/
structure CoreState where
  lastTimestamp : String
  sessions : List (String × String)
  registeredGroups : List (String × RegisteredGroup)
  lastAgentTimestamp : List (String × String)
  persistedLastTimestamp : String
  persistedLastAgentTimestamp : List (String × String)
deriving DecidableEq

/-- The durable effect of NanoClawCore.saveState (core.ts lines 159-165):
write both cursor keys through to the store. -/
def CoreState.saveState (st : CoreState) : CoreState :=
  { st with
    persistedLastTimestamp := st.lastTimestamp
    persistedLastAgentTimestamp := st.lastAgentTimestamp }

/-- Observable side effects of the core, in program order. `terminateWorker`
is the capability the group queue uses only at shutdown; the claims about the
idle timer assert it never appears in an invocation's trace. -/
inductive Action where
  | saveState (lastTimestamp : String) (lastAgentTimestamp : List (String × String))
  | setTyping (jid : String) (isTyping : Bool)
  | sendMessage (jid : String) (text : String)
  | queueSend (jid : String) (text : String)
  | enqueueMessageCheck (jid : String)
  | closeStdin (jid : String)
  | terminateWorker (jid : String)
  | runAgentStart (jid : String) (prompt : String)
  | writeSnapshots (folder : String)
  | setSession (folder : String) (sessionId : String)
  | logWarn (msg : String)
  | logError (msg : String)
deriving DecidableEq

/-- One structured output event streamed by the container agent
(the ContainerOutput shape consumed by core.ts). `result` is the optional
result payload after JSON stringification of non-string values; JavaScript
truthiness makes `some ""` behave like absence. `isError` models
`status === 'error'`. -/
structure ContainerOutput where
  result : Option String
  isError : Bool
  newSessionId : Option String
deriving DecidableEq

/-- JavaScript truthiness of the optional result payload
(`if (result.result)`): absent and the empty string are falsy. -/
def truthy : Option String → Option String
  | some s => if s == "" then none else some s
  | none => none

/-- What can happen, in order, while an invocation is streaming: a
structured output event arrives, or the idle timer fires. -/
inductive StreamItem where
  | ev (o : ContainerOutput)
  | timerFire
deriving DecidableEq

/-- The ephemeral state of one invocation inside processGroupMessages:
the idle-timer slot (`some g` = armed, with a generation number so a reset
is observable), the next generation number, the output-delivered and
had-error flags, the in-memory session map, and the accumulated actions. -/
structure InvState where
  idleTimer : Option Nat
  nextGen : Nat
  outputSentToUser : Bool
  hadError : Bool
  sessions : List (String × String)
  actions : List Action
deriving DecidableEq

/-- One step of the streaming phase of processGroupMessages
(core.ts lines 224-253 for the event callback and the idle timer, plus the
session write-through of runAgent's wrappedOnOutput, lines 304-312).
For an event: the wrapper first persists a new session handle if present;
then, if the result payload is truthy, internal spans are stripped, the
trimmed text (when non-empty) is sent to the channel and the
output-delivered flag set, and the idle timer is reset; finally a
`status === 'error'` event sets the had-error flag. When the idle timer
fires, the callback's whole body is `queue.closeStdin(chatJid)`. -/
def streamStep (folder chat : String) (s : InvState) : StreamItem → InvState
  | .ev o =>
    let s1 :=
      match o.newSessionId with
      | some sid =>
        { s with
          sessions := aset s.sessions folder sid
          actions := s.actions ++ [Action.setSession folder sid] }
      | none => s
    let s2 :=
      match truthy o.result with
      | some raw =>
        let text := jsTrim (stripInternal raw)
        let s2a :=
          if text == "" then s1
          else
            { s1 with
              actions := s1.actions ++ [Action.sendMessage chat text]
              outputSentToUser := true }
        { s2a with idleTimer := some s2a.nextGen, nextGen := s2a.nextGen + 1 }
      | none => s1
    if o.isError then { s2 with hadError := true } else s2
  | .timerFire =>
    match s.idleTimer with
    | some _ => { s with idleTimer := none, actions := s.actions ++ [Action.closeStdin chat] }
    | none => s

/-- Whether runAgent reports failure for a finished invocation
(core.ts lines 314-345): `Except.error ()` models runContainerAgent
throwing, which the catch turns into 'error'; otherwise the final output's
status decides. -/
def finalAgentError : Except Unit ContainerOutput → Bool
  | .error _ => true
  | .ok o => o.isError

/-- runAgent's handling of the final output after runContainerAgent
returns (core.ts lines 328-331): persist a new session handle when the
final output carries one; a thrown run leaves sessions untouched. -/
def finalSession (folder : String) (sessions : List (String × String))
    (acts : List Action) : Except Unit ContainerOutput → List (String × String) × List Action
  | .error _ => (sessions, acts)
  | .ok o =>
    match o.newSessionId with
    | some sid => (aset sessions folder sid, acts ++ [Action.setSession folder sid])
    | none => (sessions, acts)

/-- The result of a call to processGroupMessages: the returned boolean, the
state it leaves behind, and the trace of observable actions in order. -/
structure ProcResult where
  retval : Bool
  state : CoreState
  actions : List Action
deriving DecidableEq

/-- The configuration constants consumed by the core (config.js is not under
src/): the main group folder and the trigger-pattern test
`TRIGGER_PATTERN.test`. -/
structure Config where
  mainGroupFolder : String
  triggerTest : String → Bool

/-- The dispatch path of processGroupMessages after its guards have passed
(core.ts lines 212-269, inlining runAgent, lines 272-346): build the prompt
from the backlog, optimistically advance and persist the group cursor, set
typing, write the snapshots, start the worker, fold the stream of output
events and timer firings, persist a final session handle, clear typing, and
apply the rollback policy. `stream` is the schedule of events and timer
firings the invocation observes; `outcome` is runContainerAgent's final
output, or `Except.error ()` when it throws. -/
def dispatchInvocation (st : CoreState) (chat : String)
    (group : RegisteredGroup) (missedMessages : List NewMessage)
    (stream : List StreamItem) (outcome : Except Unit ContainerOutput) : ProcResult :=
  let prompt := formatMessages missedMessages
  let previousCursor := (alookup st.lastAgentTimestamp chat).getD ""
  let st1 :=
    { st with lastAgentTimestamp := aset st.lastAgentTimestamp chat (lastTimestampOf missedMessages) }
  let st2 := st1.saveState
  let acts0 :=
    [Action.saveState st1.lastTimestamp st1.lastAgentTimestamp,
     Action.setTyping chat true,
     Action.writeSnapshots group.folder,
     Action.runAgentStart chat prompt]
  let inv0 : InvState :=
    { idleTimer := none, nextGen := 0, outputSentToUser := false, hadError := false,
      sessions := st2.sessions, actions := [] }
  let invF := stream.foldl (streamStep group.folder chat) inv0
  let post := finalSession group.folder invF.sessions invF.actions outcome
  let agentError := finalAgentError outcome
  let stMid := { st2 with sessions := post.1 }
  let allActs := acts0 ++ post.2 ++ [Action.setTyping chat false]
  if agentError || invF.hadError then
    if invF.outputSentToUser then
      { retval := true, state := stMid,
        actions := allActs ++ [Action.logWarn "Agent error after output was sent, skipping cursor rollback to prevent duplicates"] }
    else
      let stRb := { stMid with lastAgentTimestamp := aset stMid.lastAgentTimestamp chat previousCursor }
      { retval := false, state := stRb.saveState,
        actions := allActs ++ [Action.saveState stRb.lastTimestamp stRb.lastAgentTimestamp,
                               Action.logWarn "Agent error, rolled back message cursor for retry"] }
  else
    { retval := true, state := stMid, actions := allActs }

/-- NanoClawCore.processGroupMessages (core.ts lines 194-270): unknown chat
and empty backlog are no-op successes; a non-main group that requires a
trigger is skipped when no backlog message matches the trigger pattern;
otherwise the invocation is dispatched. -/
def processGroupMessages (cfg : Config) (db : List NewMessage)
    (stream : List StreamItem) (outcome : Except Unit ContainerOutput)
    (st : CoreState) (chat : String) : ProcResult :=
  match alookup st.registeredGroups chat with
  | none => { retval := true, state := st, actions := [] }
  | some group =>
    let isMainGroup := group.folder == cfg.mainGroupFolder
    let sinceTimestamp := (alookup st.lastAgentTimestamp chat).getD ""
    match getMessagesSince db chat sinceTimestamp with
    | [] => { retval := true, state := st, actions := [] }
    | m :: ms =>
      if (!isMainGroup && !(group.requiresTrigger == some false))
          && !((m :: ms).any (fun x => cfg.triggerTest (jsTrim x.content))) then
        { retval := true, state := st, actions := [] }
      else
        dispatchInvocation st chat group (m :: ms) stream outcome

/-- Whether one stream item is an output event whose visible text survives
internal-span stripping and trimming — exactly the condition under which
the event callback sends a message and sets the output-delivered flag. -/
def eventDelivers : StreamItem → Bool
  | .ev o =>
    match truthy o.result with
    | some raw => !(jsTrim (stripInternal raw) == "")
    | none => false
  | .timerFire => false

/-- Whether one stream item is an output event with error status. -/
def eventErrors : StreamItem → Bool
  | .ev o => o.isError
  | .timerFire => false

/-- Skip leading JSON whitespace. -/
def skipWs (l : List Char) : List Char :=
  l.dropWhile (fun c => c == ' ' || c == '\n' || c == '\t' || c == '\r')

/-- Resolve a JSON escape character (enough for the string payloads the
core stores; unknown escapes resolve to the character itself, which covers
the quote, backslash and slash escapes). -/
def unescapeChar (c : Char) : Char :=
  if c == 'n' then '\n' else if c == 't' then '\t' else if c == 'r' then '\r' else c

/-- Parse the body of a JSON string literal after its opening quote; return
the string and the remaining input. -/
def parseJStringAux : List Char → List Char → Option (String × List Char)
  | [], _ => none
  | '"' :: rest, acc => some (⟨acc.reverse⟩, rest)
  | '\\' :: c :: rest, acc => parseJStringAux rest (unescapeChar c :: acc)
  | '\\' :: [], _ => none
  | c :: rest, acc => parseJStringAux rest (c :: acc)

/-- Parse the members of a JSON object of string values, after the opening
brace and any leading whitespace; fuel bounds the recursion by the input
length. -/
def parseMembers : Nat → List Char → List (String × String) →
    Option (List (String × String))
  | 0, _, _ => none
  | fuel + 1, l, acc =>
    match skipWs l with
    | '"' :: rest =>
      match parseJStringAux rest [] with
      | some (key, afterKey) =>
        match skipWs afterKey with
        | ':' :: afterColon =>
          match skipWs afterColon with
          | '"' :: valRest =>
            match parseJStringAux valRest [] with
            | some (val, afterVal) =>
              match skipWs afterVal with
              | ',' :: more => parseMembers fuel more (acc ++ [(key, val)])
              | '}' :: tail => if (skipWs tail).isEmpty then some (acc ++ [(key, val)]) else none
              | _ => none
            | none => none
          | _ => none
        | _ => none
      | none => none
    | _ => none

/-- Modelled from the spec: `JSON.parse` is a language builtin, restricted
here to the shape the core persists — a JSON object mapping group jids to
timestamp strings. Any input that is not such an object parses to `none`,
which in particular covers every string that is not valid JSON. -/
def parseStringMap (s : String) : Option (List (String × String)) :=
  match skipWs s.data with
  | '{' :: rest =>
    match skipWs rest with
    | '}' :: tail => if (skipWs tail).isEmpty then some [] else none
    | body => parseMembers (body.length + 1) body []
  | _ => none

/-- The raw router_state rows and store tables read at startup. -/
structure StoredState where
  lastTimestamp : Option String
  agentTimestamp : Option String
  sessions : List (String × String)
  registeredGroups : List (String × RegisteredGroup)

/-- NanoClawCore.loadState (core.ts lines 142-157): read the global cursor,
parse the per-group agent-timestamp map — resetting it to the empty map
with a warning when JSON.parse throws — and load sessions and registered
groups. A missing or empty stored map row is falsy in the source and loads
as the empty map without a warning. -/
def loadState (stored : StoredState) : CoreState × List Action :=
  let lastTs := stored.lastTimestamp.getD ""
  let parsed :=
    match stored.agentTimestamp with
    | none => (([] : List (String × String)), ([] : List Action))
    | some s =>
      if s == "" then ([], [])
      else
        match parseStringMap s with
        | some m => (m, [])
        | none => ([], [Action.logWarn "Corrupted last_agent_timestamp in DB, resetting"])
  ({ lastTimestamp := lastTs
     sessions := stored.sessions
     registeredGroups := stored.registeredGroups
     lastAgentTimestamp := parsed.1
     persistedLastTimestamp := lastTs
     persistedLastAgentTimestamp := parsed.1 }, parsed.2)

/-- Per-tick environment of the dispatch loop: whether an active worker
accepts a live-forward for a chat (queue.sendMessage's return value), and
the injected store failures — the initial fetch throwing, or every
setRouterState write throwing (StoreUnavailable). -/
structure TickEnv where
  queueActive : String → Bool
  fetchFails : Bool
  saveFails : Bool

/-- The per-group body of a dispatch-loop tick (core.ts lines 378-413):
unregistered chats are skipped; a non-main group that requires a trigger is
skipped when no batch message matches; otherwise the full backlog since the
group cursor is re-fetched, falling back to this tick's batch when that
backlog is empty, and the formatted text is live-forwarded when a worker is
active (advancing and persisting the group cursor and signalling typing),
or a message check is enqueued otherwise. A throwing store write surfaces
as `Except.error` carrying the state and trace at the throw point. -/
def tickGroupStep (cfg : Config) (db : List NewMessage) (env : TickEnv)
    (acc : CoreState × List Action) (entry : String × List NewMessage) :
    Except (CoreState × List Action) (CoreState × List Action) :=
  let st := acc.1
  let acts := acc.2
  let chat := entry.1
  let groupMessages := entry.2
  match alookup st.registeredGroups chat with
  | none => .ok (st, acts)
  | some group =>
    let isMainGroup := group.folder == cfg.mainGroupFolder
    let needsTrigger := !isMainGroup && !(group.requiresTrigger == some false)
    if needsTrigger && !(groupMessages.any (fun m => cfg.triggerTest (jsTrim m.content))) then
      .ok (st, acts)
    else
      let allPending :=
        getMessagesSince db chat ((alookup st.lastAgentTimestamp chat).getD "")
      let messagesToSend := if allPending.isEmpty then groupMessages else allPending
      let formatted := formatMessages messagesToSend
      if env.queueActive chat then
        let st1 :=
          { st with lastAgentTimestamp := aset st.lastAgentTimestamp chat (lastTimestampOf messagesToSend) }
        if env.saveFails then .error (st1, acts ++ [Action.queueSend chat formatted])
        else
          .ok (st1.saveState,
               acts ++ [Action.queueSend chat formatted,
                        Action.saveState st1.lastTimestamp st1.lastAgentTimestamp,
                        Action.setTyping chat true])
      else .ok (st, acts ++ [Action.enqueueMessageCheck chat])

/-- The body of one dispatch-loop iteration inside the try block
(core.ts lines 358-414): fetch all messages newer than the global cursor,
advance and persist the global cursor before any per-group processing,
partition by chat, and run the per-group body. The in-memory global cursor
is assigned before saveState is called, exactly as in the source. -/
def tickBody (cfg : Config) (db : List NewMessage) (env : TickEnv) (st : CoreState) :
    Except (CoreState × List Action) (CoreState × List Action) :=
  if env.fetchFails then .error (st, [])
  else
    let jids := st.registeredGroups.map (fun p => p.1)
    let fetched := getNewMessages db jids st.lastTimestamp
    if fetched.1.isEmpty then .ok (st, [])
    else
      let st1 := { st with lastTimestamp := fetched.2 }
      if env.saveFails then .error (st1, [])
      else
        let st2 := st1.saveState
        (groupByChat fetched.1).foldlM (tickGroupStep cfg db env)
          (st2, [Action.saveState st1.lastTimestamp st1.lastAgentTimestamp])

/-- One full dispatch-loop iteration (core.ts lines 357-418): the tick body
runs inside a try/catch that logs any error and lets the loop continue with
the state as of the throw point. -/
def tickCaught (cfg : Config) (db : List NewMessage) (env : TickEnv) (st : CoreState) :
    CoreState × List Action :=
  match tickBody cfg db env st with
  | .ok r => r
  | .error (st', acts) => (st', acts ++ [Action.logError "Error in message loop"])

/-- The dispatch loop itself: run one caught tick per element of the
schedule (each tick sees its own store snapshot and environment), collecting
each tick's trace. The loop in the source is infinite; this models any
finite prefix of it. -/
def runLoop (cfg : Config) (st : CoreState) :
    List (List NewMessage × TickEnv) → CoreState × List (List Action)
  | [] => (st, [])
  | (db, env) :: rest =>
    let r := tickCaught cfg db env st
    let rest2 := runLoop cfg r.1 rest
    (rest2.1, r.2 :: rest2.2)

/-! ### Concrete fixtures

Small concrete configurations, groups, messages and states used to
instantiate the theorems below on explicit inputs. -/

/-- A concrete configuration: main folder "main", trigger phrase "@bot". -/
def wCfg : Config := { mainGroupFolder := "main", triggerTest := fun s => s == "@bot" }

/-- A registered non-main group with requiresTrigger left undefined. -/
def wGroup : RegisteredGroup :=
  { name := "Family", folder := "family", trigger := "@bot", added_at := "t0",
    requiresTrigger := none }

/-- A registered group living in the main folder. -/
def wMainGroup : RegisteredGroup :=
  { name := "Main", folder := "main", trigger := "@bot", added_at := "t0",
    requiresTrigger := none }

/-- A message that matches the trigger pattern. -/
def wMsg : NewMessage :=
  { id := "m1", chat_jid := "g@g.us", sender_name := "alice", content := "@bot",
    timestamp := "5" }

/-- A message that does not match the trigger pattern. -/
def wMsgNoTrig : NewMessage :=
  { id := "m2", chat_jid := "g@g.us", sender_name := "alice", content := "hi",
    timestamp := "5" }

/-- A fresh core state with one registered non-main group. -/
def wSt : CoreState :=
  { lastTimestamp := "", sessions := [], registeredGroups := [("g@g.us", wGroup)],
    lastAgentTimestamp := [], persistedLastTimestamp := "",
    persistedLastAgentTimestamp := [] }

/-- A core state with one registered main group whose agent cursor is ahead
of the global cursor (as left behind by a concurrent invocation that
already consumed the pending messages). -/
def w2St : CoreState :=
  { lastTimestamp := "", sessions := [], registeredGroups := [("g@g.us", wMainGroup)],
    lastAgentTimestamp := [("g@g.us", "9")], persistedLastTimestamp := "",
    persistedLastAgentTimestamp := [("g@g.us", "9")] }

/-- A core state with one registered main group and an empty agent cursor. -/
def w3St : CoreState :=
  { lastTimestamp := "", sessions := [], registeredGroups := [("g@g.us", wMainGroup)],
    lastAgentTimestamp := [], persistedLastTimestamp := "",
    persistedLastAgentTimestamp := [] }

/-- A tick environment with an active worker and a healthy store. -/
def w2Env : TickEnv := { queueActive := fun _ => true, fetchFails := false, saveFails := false }

/-- A tick environment whose store writes all throw. -/
def w4Env : TickEnv := { queueActive := fun _ => false, fetchFails := false, saveFails := true }

/-- A tick environment whose initial fetch throws. -/
def wFetchFailEnv : TickEnv :=
  { queueActive := fun _ => false, fetchFails := true, saveFails := false }

/-- A stream consisting of a single error-status event with no result. -/
def w1Stream : List StreamItem :=
  [StreamItem.ev { result := none, isError := true, newSessionId := none }]

/-- A stream consisting of a single error-status event whose result is
internal-only text. -/
def w9Stream : List StreamItem :=
  [StreamItem.ev { result := some "<internal>thinking</internal>", isError := true,
                   newSessionId := none }]

/-- A benign final output from the container agent. -/
def wOkOutcome : Except Unit ContainerOutput :=
  Except.ok { result := none, isError := false, newSessionId := none }

/-- A fresh invocation state. -/
def wInv : InvState :=
  { idleTimer := none, nextGen := 0, outputSentToUser := false, hadError := false,
    sessions := [], actions := [] }

/-- Stored rows whose agent-timestamp map is corrupt. -/
def wStored : StoredState :=
  { lastTimestamp := some "7", agentTimestamp := some "not json",
    sessions := [("family", "sess1")], registeredGroups := [("g@g.us", wGroup)] }

/-! ### Helper lemmas -/

theorem alookup_aset {α : Type} (l : List (String × α)) (k : String) (v : α) :
    alookup (aset l k v) k = some v := by
  induction l with
  | nil => simp [aset, alookup]
  | cons p rest ih =>
    by_cases h : p.1 = k
    · simp [aset, alookup, h]
    · simp [aset, alookup, h, ih]

theorem charsLt_irrefl (l : List Char) : charsLt l l = false := by
  induction l with
  | nil => rfl
  | cons c rest ih => simp [charsLt, ih]

theorem strLt_irrefl (s : String) : strLt s s = false := charsLt_irrefl s.data

theorem mem_getMessagesSince {db : List NewMessage} {chat since : String} {x : NewMessage}
    (h : x ∈ getMessagesSince db chat since) : strLt since x.timestamp = true := by
  unfold getMessagesSince at h
  have := (List.mem_filter.mp h).2
  exact (Bool.and_eq_true _ _ |>.mp this).2

theorem lastTimestampOf_mem : ∀ (m : NewMessage) (ms : List NewMessage),
    ∃ x ∈ m :: ms, lastTimestampOf (m :: ms) = x.timestamp := by
  intro m ms
  induction ms generalizing m with
  | nil => exact ⟨m, List.mem_singleton.mpr rfl, rfl⟩
  | cons m' ms' ih =>
    obtain ⟨x, hx, he⟩ := ih m'
    exact ⟨x, List.mem_cons_of_mem m hx, he⟩

/-- The cursor the dispatch path advances to is strictly above the previous
cursor, hence distinct from it: the backlog query only returns messages with
timestamp strictly greater than the cursor. -/
theorem newCursor_ne_previous {db : List NewMessage} {chat since : String}
    {m : NewMessage} {ms : List NewMessage}
    (hm : getMessagesSince db chat since = m :: ms) :
    lastTimestampOf (m :: ms) ≠ since := by
  obtain ⟨x, hx, he⟩ := lastTimestampOf_mem m ms
  rw [he]
  intro hEq
  have hmem : x ∈ getMessagesSince db chat since := by rw [hm]; exact hx
  have hlt := mem_getMessagesSince hmem
  rw [hEq] at hlt
  rw [strLt_irrefl] at hlt
  exact Bool.false_ne_true hlt

theorem streamStep_outputSent (f c : String) (s : InvState) (it : StreamItem) :
    (streamStep f c s it).outputSentToUser = (s.outputSentToUser || eventDelivers it) := by
  cases it with
  | timerFire => cases h : s.idleTimer <;> simp [streamStep, eventDelivers, h]
  | ev o =>
    simp only [streamStep, eventDelivers]
    cases o.newSessionId <;> cases htr : truthy o.result <;>
      by_cases he : o.isError <;> simp [htr, he] <;> split <;> simp_all

theorem streamStep_hadError (f c : String) (s : InvState) (it : StreamItem) :
    (streamStep f c s it).hadError = (s.hadError || eventErrors it) := by
  cases it with
  | timerFire => cases h : s.idleTimer <;> simp [streamStep, eventErrors, h]
  | ev o =>
    simp only [streamStep, eventErrors]
    cases o.newSessionId <;> cases htr : truthy o.result <;>
      by_cases he : o.isError <;> simp [htr, he] <;> split <;> simp_all

theorem foldl_outputSent (f c : String) :
    ∀ (stream : List StreamItem) (s : InvState),
      (stream.foldl (streamStep f c) s).outputSentToUser =
        (s.outputSentToUser || stream.any eventDelivers) := by
  intro stream
  induction stream with
  | nil => intro s; simp
  | cons it rest ih =>
    intro s
    simp only [List.foldl_cons, List.any_cons, ih, streamStep_outputSent, Bool.or_assoc]

theorem foldl_hadError (f c : String) :
    ∀ (stream : List StreamItem) (s : InvState),
      (stream.foldl (streamStep f c) s).hadError = (s.hadError || stream.any eventErrors) := by
  intro stream
  induction stream with
  | nil => intro s; simp
  | cons it rest ih =>
    intro s
    simp only [List.foldl_cons, List.any_cons, ih, streamStep_hadError, Bool.or_assoc]

theorem streamStep_no_terminate (f c : String) (s : InvState) (it : StreamItem) (j : String)
    (h : Action.terminateWorker j ∉ s.actions) :
    Action.terminateWorker j ∉ (streamStep f c s it).actions := by
  cases it with
  | timerFire => cases hi : s.idleTimer <;> simp [streamStep, hi] <;> simp_all
  | ev o =>
    simp only [streamStep]
    cases o.newSessionId <;> cases htr : truthy o.result <;>
      by_cases he : o.isError <;> simp [htr, he] <;> (try split) <;> simp_all

theorem streamStep_no_send (f c : String) (s : InvState) (it : StreamItem) (j t : String)
    (hit : eventDelivers it = false) (h : Action.sendMessage j t ∉ s.actions) :
    Action.sendMessage j t ∉ (streamStep f c s it).actions := by
  cases it with
  | timerFire => cases hi : s.idleTimer <;> simp [streamStep, hi] <;> simp_all
  | ev o =>
    simp only [streamStep]
    simp only [eventDelivers] at hit
    cases o.newSessionId <;> cases htr : truthy o.result <;>
      by_cases he : o.isError <;> simp [htr] at hit ⊢ <;> simp [he] <;> (try split) <;> simp_all

theorem foldl_no_terminate (f c : String) (j : String) :
    ∀ (stream : List StreamItem) (s : InvState),
      Action.terminateWorker j ∉ s.actions →
      Action.terminateWorker j ∉ (stream.foldl (streamStep f c) s).actions := by
  intro stream
  induction stream with
  | nil => intro s h; simpa using h
  | cons it rest ih =>
    intro s h
    exact ih (streamStep f c s it) (streamStep_no_terminate f c s it j h)

theorem foldl_no_send (f c : String) (j t : String) :
    ∀ (stream : List StreamItem) (s : InvState),
      (∀ it ∈ stream, eventDelivers it = false) →
      Action.sendMessage j t ∉ s.actions →
      Action.sendMessage j t ∉ (stream.foldl (streamStep f c) s).actions := by
  intro stream
  induction stream with
  | nil => intro s _ h; simpa using h
  | cons it rest ih =>
    intro s hall h
    exact ih (streamStep f c s it)
      (fun x hx => hall x (List.mem_cons_of_mem it hx))
      (streamStep_no_send f c s it j t (hall it (List.mem_cons_self it rest)) h)

/-- The final session handling appends at most one setSession action. -/
theorem finalSession_acts (folder : String) (sessions : List (String × String))
    (acts : List Action) (outcome : Except Unit ContainerOutput) :
    (finalSession folder sessions acts outcome).2 = acts ∨
      ∃ sid, (finalSession folder sessions acts outcome).2 = acts ++ [Action.setSession folder sid] := by
  cases outcome with
  | error e => exact Or.inl rfl
  | ok o =>
    cases h : o.newSessionId with
    | none => exact Or.inl (by simp [finalSession, h])
    | some sid => exact Or.inr ⟨sid, by simp [finalSession, h]⟩

/-- Reduction of processGroupMessages to the dispatch path: when the chat is
registered, the backlog is non-empty, and the trigger check passes, the call
is exactly `dispatchInvocation`. -/
theorem processGroupMessages_dispatch (cfg : Config) (db : List NewMessage)
    (stream : List StreamItem) (outcome : Except Unit ContainerOutput)
    (st : CoreState) (chat : String) (group : RegisteredGroup)
    (m : NewMessage) (ms : List NewMessage)
    (h1 : alookup st.registeredGroups chat = some group)
    (hm : getMessagesSince db chat ((alookup st.lastAgentTimestamp chat).getD "") = m :: ms)
    (htr : ((!(group.folder == cfg.mainGroupFolder) && !(group.requiresTrigger == some false))
        && !((m :: ms).any (fun x => cfg.triggerTest (jsTrim x.content)))) = false) :
    processGroupMessages cfg db stream outcome st chat =
      dispatchInvocation st chat group (m :: ms) stream outcome := by
  unfold processGroupMessages
  rw [h1]
  simp only [hm, htr]
  simp

theorem finalSession_no_terminate (folder : String) (sessions : List (String × String))
    (acts : List Action) (outcome : Except Unit ContainerOutput) (j : String)
    (h : Action.terminateWorker j ∉ acts) :
    Action.terminateWorker j ∉ (finalSession folder sessions acts outcome).2 := by
  rcases finalSession_acts folder sessions acts outcome with hfs | ⟨sid, hfs⟩ <;> rw [hfs]
  · exact h
  · simp [h]

/-- No branch of the dispatch path emits a worker-termination action. -/
theorem dispatchInvocation_no_terminate (st : CoreState) (chat : String)
    (group : RegisteredGroup) (missed : List NewMessage) (stream : List StreamItem)
    (outcome : Except Unit ContainerOutput) (j : String) :
    Action.terminateWorker j ∉ (dispatchInvocation st chat group missed stream outcome).actions := by
  unfold dispatchInvocation
  dsimp only
  split
  · split
    · intro hmem
      simp only [List.mem_append, List.mem_cons, List.not_mem_nil, or_false] at hmem
      simp at hmem
      exact finalSession_no_terminate _ _ _ _ _
        (foldl_no_terminate _ _ _ stream _ (by simp)) hmem
    · intro hmem
      simp only [List.mem_append, List.mem_cons, List.not_mem_nil, or_false] at hmem
      simp at hmem
      exact finalSession_no_terminate _ _ _ _ _
        (foldl_no_terminate _ _ _ stream _ (by simp)) hmem
  · intro hmem
    simp only [List.mem_append, List.mem_cons, List.not_mem_nil, or_false] at hmem
    simp at hmem
    exact finalSession_no_terminate _ _ _ _ _
      (foldl_no_terminate _ _ _ stream _ (by simp)) hmem

/-! ### Claim theorems -/

/-- Claim C10: calling processGroupMessages with a chat id that has no
registered group returns true and leaves all state unchanged — no cursor,
session, queue, or channel operation is performed (the trace is empty). -/
theorem c10_unknown_chat_noop (cfg : Config) (db : List NewMessage)
    (stream : List StreamItem) (outcome : Except Unit ContainerOutput)
    (st : CoreState) (chat : String)
    (h : alookup st.registeredGroups chat = none) :
    processGroupMessages cfg db stream outcome st chat =
      { retval := true, state := st, actions := [] } := by
  unfold processGroupMessages
  rw [h]

/-- Witness for C10: a concrete unregistered chat id is a pure no-op. -/
theorem c10_witness :
    alookup wSt.registeredGroups "unknown@g.us" = none ∧
    processGroupMessages wCfg [wMsg] w1Stream wOkOutcome wSt "unknown@g.us" =
      { retval := true, state := wSt, actions := [] } :=
  ⟨by decide,
   c10_unknown_chat_noop wCfg [wMsg] w1Stream wOkOutcome wSt "unknown@g.us" (by decide)⟩

/-- Claim C7: loadState never fails on malformed persisted state — when the
stored per-group agent-timestamp map does not parse, lastAgentTimestamp is
reset to the empty map, a warning is logged, and the rest of startup
proceeds normally (the other fields load as usual). -/
theorem c7_corrupted_state_reset (stored : StoredState) (s : String)
    (h1 : stored.agentTimestamp = some s)
    (h2 : (s == "") = false)
    (h3 : parseStringMap s = none) :
    (loadState stored).1.lastAgentTimestamp = [] ∧
    (loadState stored).2 = [Action.logWarn "Corrupted last_agent_timestamp in DB, resetting"] ∧
    (loadState stored).1.lastTimestamp = stored.lastTimestamp.getD "" ∧
    (loadState stored).1.sessions = stored.sessions ∧
    (loadState stored).1.registeredGroups = stored.registeredGroups := by
  unfold loadState
  rw [h1]
  simp [h2, h3]

/-- Witness for C7: a concretely corrupt stored map resets to empty with a
warning while the rest of the state loads. -/
theorem c7_witness :
    (loadState wStored).1.lastAgentTimestamp = [] ∧
    (loadState wStored).2 = [Action.logWarn "Corrupted last_agent_timestamp in DB, resetting"] ∧
    (loadState wStored).1.lastTimestamp = wStored.lastTimestamp.getD "" ∧
    (loadState wStored).1.sessions = wStored.sessions ∧
    (loadState wStored).1.registeredGroups = wStored.registeredGroups :=
  c7_corrupted_state_reset wStored "not json" rfl (by decide) (by decide)

/-- Claim C5: a non-main group whose requiresTrigger flag is not explicitly
false is skipped for the tick when no pending message matches the trigger
pattern — the tick's per-group body leaves the state untouched and emits no
action (in particular no enqueueMessageCheck), the runner dispatches no
invocation and changes nothing, and a group in the main folder never
requires a trigger. -/
theorem c5_trigger_skip (cfg : Config) (db : List NewMessage) (env : TickEnv)
    (stream : List StreamItem) (outcome : Except Unit ContainerOutput)
    (st : CoreState) (acts : List Action) (chat : String) (group : RegisteredGroup)
    (batch : List NewMessage)
    (h1 : alookup st.registeredGroups chat = some group)
    (hneeds : (!(group.folder == cfg.mainGroupFolder) && !(group.requiresTrigger == some false)) = true)
    (hbatch : batch.any (fun m => cfg.triggerTest (jsTrim m.content)) = false)
    (hback : (getMessagesSince db chat ((alookup st.lastAgentTimestamp chat).getD "")).any
        (fun m => cfg.triggerTest (jsTrim m.content)) = false) :
    tickGroupStep cfg db env (st, acts) (chat, batch) = .ok (st, acts) ∧
    processGroupMessages cfg db stream outcome st chat =
      { retval := true, state := st, actions := [] } ∧
    (∀ g : RegisteredGroup, g.folder = cfg.mainGroupFolder →
      (!(g.folder == cfg.mainGroupFolder) && !(g.requiresTrigger == some false)) = false) := by
  refine ⟨?_, ?_, ?_⟩
  · unfold tickGroupStep
    simp [h1, hneeds, hbatch]
  · unfold processGroupMessages
    rw [h1]
    cases hb : getMessagesSince db chat ((alookup st.lastAgentTimestamp chat).getD "") with
    | nil => simp [hb]
    | cons m ms =>
      rw [hb] at hback
      simp [hb, hneeds, hback]
  · intro g hg
    simp [hg]

/-- Witness for C5: a concrete trigger-requiring group with a non-matching
batch is skipped with no actions, and the main folder is trigger-free. -/
theorem c5_witness :
    tickGroupStep wCfg [wMsgNoTrig] w2Env (wSt, []) ("g@g.us", [wMsgNoTrig]) = .ok (wSt, []) ∧
    processGroupMessages wCfg [wMsgNoTrig] w1Stream wOkOutcome wSt "g@g.us" =
      { retval := true, state := wSt, actions := [] } ∧
    (∀ g : RegisteredGroup, g.folder = wCfg.mainGroupFolder →
      (!(g.folder == wCfg.mainGroupFolder) && !(g.requiresTrigger == some false)) = false) :=
  c5_trigger_skip wCfg [wMsgNoTrig] w2Env w1Stream wOkOutcome wSt [] "g@g.us" wGroup
    [wMsgNoTrig] (by decide) (by decide) (by decide) (by decide)

/-- Claim C3: whenever processGroupMessages dispatches an invocation, the
group cursor is set to the timestamp of the last message of the backlog,
and that value is persisted (the saveState action, carrying the advanced
map) before the worker is started and hence before any output event — the
trace begins with saveState, typing-on and the snapshot writes, and only
then the worker start. -/
theorem c3_optimistic_advance_before_worker (cfg : Config) (db : List NewMessage)
    (stream : List StreamItem) (outcome : Except Unit ContainerOutput)
    (st : CoreState) (chat : String) (group : RegisteredGroup)
    (m : NewMessage) (ms : List NewMessage)
    (h1 : alookup st.registeredGroups chat = some group)
    (hm : getMessagesSince db chat ((alookup st.lastAgentTimestamp chat).getD "") = m :: ms)
    (htr : ((!(group.folder == cfg.mainGroupFolder) && !(group.requiresTrigger == some false))
        && !((m :: ms).any (fun x => cfg.triggerTest (jsTrim x.content)))) = false) :
    alookup (aset st.lastAgentTimestamp chat (lastTimestampOf (m :: ms))) chat
      = some (lastTimestampOf (m :: ms)) ∧
    [Action.saveState st.lastTimestamp (aset st.lastAgentTimestamp chat (lastTimestampOf (m :: ms))),
     Action.setTyping chat true,
     Action.writeSnapshots group.folder,
     Action.runAgentStart chat (formatMessages (m :: ms))] <+:
      (processGroupMessages cfg db stream outcome st chat).actions := by
  refine ⟨alookup_aset _ _ _, ?_⟩
  rw [processGroupMessages_dispatch cfg db stream outcome st chat group m ms h1 hm htr]
  unfold dispatchInvocation
  dsimp only
  split
  · split
    · simp only [List.append_assoc, List.cons_append, List.nil_append]
      exact List.prefix_append _ _
    · simp only [List.append_assoc, List.cons_append, List.nil_append]
      exact List.prefix_append _ _
  · simp only [List.append_assoc, List.cons_append, List.nil_append]
    exact List.prefix_append _ _

/-- Witness for C3: on a concrete dispatch the trace starts with the
persisting saveState, then typing, snapshots and the worker start. -/
theorem c3_witness :
    alookup (aset wSt.lastAgentTimestamp "g@g.us" (lastTimestampOf [wMsg])) "g@g.us"
      = some (lastTimestampOf [wMsg]) ∧
    [Action.saveState wSt.lastTimestamp (aset wSt.lastAgentTimestamp "g@g.us" (lastTimestampOf [wMsg])),
     Action.setTyping "g@g.us" true,
     Action.writeSnapshots wGroup.folder,
     Action.runAgentStart "g@g.us" (formatMessages [wMsg])] <+:
      (processGroupMessages wCfg [wMsg] w1Stream wOkOutcome wSt "g@g.us").actions :=
  c3_optimistic_advance_before_worker wCfg [wMsg] w1Stream wOkOutcome wSt "g@g.us" wGroup
    wMsg [] (by decide) (by decide) (by decide)

/-- Claim C1: for a dispatched invocation that ends in failure (the run
returns error or some output event carried error status), the group cursor
is rolled back to its pre-dispatch value — both in memory and in the
persisted store — if and only if no output was delivered to the user during
the invocation; if output was delivered, the cursor keeps the
optimistically-advanced value. -/
theorem c1_rollback_iff_no_output_on_failure (cfg : Config) (db : List NewMessage)
    (stream : List StreamItem) (outcome : Except Unit ContainerOutput)
    (st : CoreState) (chat : String) (group : RegisteredGroup)
    (m : NewMessage) (ms : List NewMessage)
    (h1 : alookup st.registeredGroups chat = some group)
    (hm : getMessagesSince db chat ((alookup st.lastAgentTimestamp chat).getD "") = m :: ms)
    (htr : ((!(group.folder == cfg.mainGroupFolder) && !(group.requiresTrigger == some false))
        && !((m :: ms).any (fun x => cfg.triggerTest (jsTrim x.content)))) = false)
    (hfail : (finalAgentError outcome || stream.any eventErrors) = true) :
    ((alookup (processGroupMessages cfg db stream outcome st chat).state.lastAgentTimestamp chat).getD ""
        = (alookup st.lastAgentTimestamp chat).getD "" ∧
     (alookup (processGroupMessages cfg db stream outcome st chat).state.persistedLastAgentTimestamp chat).getD ""
        = (alookup st.lastAgentTimestamp chat).getD "")
      ↔ stream.any eventDelivers = false := by
  rw [processGroupMessages_dispatch cfg db stream outcome st chat group m ms h1 hm htr]
  unfold dispatchInvocation
  dsimp only
  rw [foldl_hadError, foldl_outputSent]
  simp only [Bool.false_or]
  cases hdel : stream.any eventDelivers with
  | true =>
    rw [hfail]
    simp [CoreState.saveState, alookup_aset]
    exact newCursor_ne_previous hm
  | false =>
    rw [hfail]
    simp [CoreState.saveState, alookup_aset]

/-- Witness for C1: a concrete failing invocation with one error event and
no output — the rollback iff holds at this input. -/
theorem c1_witness :
    ((alookup (processGroupMessages wCfg [wMsg] w1Stream wOkOutcome wSt "g@g.us").state.lastAgentTimestamp "g@g.us").getD ""
        = (alookup wSt.lastAgentTimestamp "g@g.us").getD "" ∧
     (alookup (processGroupMessages wCfg [wMsg] w1Stream wOkOutcome wSt "g@g.us").state.persistedLastAgentTimestamp "g@g.us").getD ""
        = (alookup wSt.lastAgentTimestamp "g@g.us").getD "")
      ↔ w1Stream.any eventDelivers = false :=
  c1_rollback_iff_no_output_on_failure wCfg [wMsg] w1Stream wOkOutcome wSt "g@g.us" wGroup
    wMsg [] (by decide) (by decide) (by decide) (by decide)

/-- Claim C9: output events whose result text is empty after stripping
internal spans and trimming send nothing: when every stream item delivers no
visible text, the whole invocation trace contains no channel send, and a
failing invocation is still rolled back (the cursor returns to its
pre-dispatch value and the call reports failure for retry). -/
theorem c9_internal_only_no_send_rollback (cfg : Config) (db : List NewMessage)
    (stream : List StreamItem) (outcome : Except Unit ContainerOutput)
    (st : CoreState) (chat : String) (group : RegisteredGroup)
    (m : NewMessage) (ms : List NewMessage)
    (h1 : alookup st.registeredGroups chat = some group)
    (hm : getMessagesSince db chat ((alookup st.lastAgentTimestamp chat).getD "") = m :: ms)
    (htr : ((!(group.folder == cfg.mainGroupFolder) && !(group.requiresTrigger == some false))
        && !((m :: ms).any (fun x => cfg.triggerTest (jsTrim x.content)))) = false)
    (hempty : ∀ it ∈ stream, eventDelivers it = false)
    (hfail : (finalAgentError outcome || stream.any eventErrors) = true) :
    (∀ j t, Action.sendMessage j t ∉ (processGroupMessages cfg db stream outcome st chat).actions) ∧
    (alookup (processGroupMessages cfg db stream outcome st chat).state.lastAgentTimestamp chat).getD ""
        = (alookup st.lastAgentTimestamp chat).getD "" ∧
    (processGroupMessages cfg db stream outcome st chat).retval = false := by
  have hdel : stream.any eventDelivers = false := by
    rw [List.any_eq_false]
    intro it hit
    simp [hempty it hit]
  rw [processGroupMessages_dispatch cfg db stream outcome st chat group m ms h1 hm htr]
  unfold dispatchInvocation
  dsimp only
  rw [foldl_hadError, foldl_outputSent]
  simp only [Bool.false_or, hdel, hfail]
  rw [if_pos trivial, if_neg Bool.false_ne_true]
  refine ⟨?_, ?_, ?_⟩
  · intro j t
    dsimp only
    simp only [List.mem_append, List.mem_cons, List.not_mem_nil, or_false]
    intro hmem
    rcases hmem with ((((h | h | h | h) | h) | h) | h | h)
    · exact Action.noConfusion h
    · exact Action.noConfusion h
    · exact Action.noConfusion h
    · exact Action.noConfusion h
    · rcases finalSession_acts group.folder _ _ outcome with hfs | ⟨sid, hfs⟩ <;>
        rw [hfs] at h
      · exact foldl_no_send group.folder chat j t stream _ hempty (by simp) h
      · rcases List.mem_append.mp h with h | h
        · exact foldl_no_send group.folder chat j t stream _ hempty (by simp) h
        · simp at h
    · exact Action.noConfusion h
    · exact Action.noConfusion h
    · exact Action.noConfusion h
  · simp [CoreState.saveState, alookup_aset]
  · simp

/-- Witness for C9: a failing invocation whose only event carries
internal-only text sends nothing and is rolled back. -/
theorem c9_witness :
    (∀ j t, Action.sendMessage j t ∉
      (processGroupMessages wCfg [wMsg] w9Stream wOkOutcome wSt "g@g.us").actions) ∧
    (alookup (processGroupMessages wCfg [wMsg] w9Stream wOkOutcome wSt "g@g.us").state.lastAgentTimestamp "g@g.us").getD ""
        = (alookup wSt.lastAgentTimestamp "g@g.us").getD "" ∧
    (processGroupMessages wCfg [wMsg] w9Stream wOkOutcome wSt "g@g.us").retval = false :=
  c9_internal_only_no_send_rollback wCfg [wMsg] w9Stream wOkOutcome wSt "g@g.us" wGroup
    wMsg [] (by decide) (by decide) (by decide) (by decide) (by decide)

/-- Claim C2, corrected: on a tick, for a group that passes the trigger
check and has an active worker, the live-forwarded text is built from the
re-fetched full backlog since the group's lastAgentTimestamp whenever that
backlog is non-empty (the claim's universal statement fails when the
re-fetched backlog is empty — see the counterexample — in which case the
tick's own batch is forwarded instead). -/
theorem c2_backlog_forward_amended (cfg : Config) (db : List NewMessage) (env : TickEnv)
    (st : CoreState) (acts : List Action) (chat : String) (batch : List NewMessage)
    (group : RegisteredGroup) (b : NewMessage) (bs : List NewMessage)
    (h1 : alookup st.registeredGroups chat = some group)
    (htr : ((!(group.folder == cfg.mainGroupFolder) && !(group.requiresTrigger == some false))
        && !(batch.any (fun m => cfg.triggerTest (jsTrim m.content)))) = false)
    (hback : getMessagesSince db chat ((alookup st.lastAgentTimestamp chat).getD "") = b :: bs)
    (hq : env.queueActive chat = true)
    (hs : env.saveFails = false) :
    tickGroupStep cfg db env (st, acts) (chat, batch) =
      .ok (({ st with lastAgentTimestamp := aset st.lastAgentTimestamp chat (lastTimestampOf (b :: bs)) }).saveState,
           acts ++ [Action.queueSend chat (formatMessages (b :: bs)),
                    Action.saveState st.lastTimestamp
                      (aset st.lastAgentTimestamp chat (lastTimestampOf (b :: bs))),
                    Action.setTyping chat true]) := by
  unfold tickGroupStep
  simp [h1, htr, hback, hq, hs]

/-- Counterexample for C2 as stated: when a concurrent invocation has
already advanced the group cursor past this tick's batch, the re-fetched
backlog is empty, yet the tick live-forwards the batch itself — the
forwarded text is not built from the backlog (whose rendering is the empty
string). -/
theorem c2_counterexample :
    (tickCaught wCfg [wMsgNoTrig] w2Env w2St).2 =
      [Action.saveState "5" [("g@g.us", "9")],
       Action.queueSend "g@g.us" "[5] alice: hi",
       Action.saveState "5" [("g@g.us", "5")],
       Action.setTyping "g@g.us" true] ∧
    getMessagesSince [wMsgNoTrig] "g@g.us"
        ((alookup w2St.lastAgentTimestamp "g@g.us").getD "") = [] ∧
    "[5] alice: hi" ≠ formatMessages (getMessagesSince [wMsgNoTrig] "g@g.us"
        ((alookup w2St.lastAgentTimestamp "g@g.us").getD "")) := by decide

/-- Witness for C2's amended statement: with a non-empty backlog, the
forwarded text is the rendering of the full backlog. -/
theorem c2_witness :
    tickGroupStep wCfg [wMsgNoTrig] w2Env (w3St, []) ("g@g.us", [wMsgNoTrig]) =
      .ok (({ w3St with lastAgentTimestamp := aset w3St.lastAgentTimestamp "g@g.us" (lastTimestampOf [wMsgNoTrig]) }).saveState,
           [] ++ [Action.queueSend "g@g.us" (formatMessages [wMsgNoTrig]),
                  Action.saveState w3St.lastTimestamp
                    (aset w3St.lastAgentTimestamp "g@g.us" (lastTimestampOf [wMsgNoTrig])),
                  Action.setTyping "g@g.us" true]) :=
  c2_backlog_forward_amended wCfg [wMsgNoTrig] w2Env w3St [] "g@g.us" [wMsgNoTrig]
    wMainGroup wMsgNoTrig [] (by decide) (by decide) (by decide) (by decide) (by decide)

/-- Claim C6, corrected: the idle timer is reset by every output event that
carries a (truthy) result — not by every structured output event, see the
counterexample — and when it fires the only action taken is closing the
worker's input stream; no path of an invocation ever emits a
worker-termination action. -/
theorem c6_idle_timer_amended :
    (∀ (cfg : Config) (db : List NewMessage) (stream : List StreamItem)
        (outcome : Except Unit ContainerOutput) (st : CoreState) (chat j : String),
      Action.terminateWorker j ∉ (processGroupMessages cfg db stream outcome st chat).actions) ∧
    (∀ (f c : String) (s : InvState) (o : ContainerOutput) (r : String),
      o.result = some r → (r == "") = false →
      (streamStep f c s (.ev o)).idleTimer = some s.nextGen ∧
      (streamStep f c s (.ev o)).nextGen = s.nextGen + 1) ∧
    (∀ (f c : String) (s : InvState),
      (streamStep f c s .timerFire).actions = s.actions ++ [Action.closeStdin c] ∨
      (streamStep f c s .timerFire).actions = s.actions) := by
  refine ⟨?_, ?_, ?_⟩
  · intro cfg db stream outcome st chat j
    unfold processGroupMessages
    cases h1 : alookup st.registeredGroups chat with
    | none => simp
    | some group =>
      dsimp only
      cases hb : getMessagesSince db chat ((alookup st.lastAgentTimestamp chat).getD "") with
      | nil => simp
      | cons m ms =>
        dsimp only
        split
        · simp
        · exact dispatchInvocation_no_terminate st chat group (m :: ms) stream outcome j
  · intro f c s o r hr hr'
    simp only [streamStep, truthy, hr, hr']
    cases o.newSessionId <;> by_cases he : o.isError <;> simp [he] <;> split <;> simp
  · intro f c s
    cases hi : s.idleTimer with
    | some g => exact Or.inl (by simp [streamStep, hi])
    | none => exact Or.inr (by simp [streamStep, hi])

/-- Counterexample for C6 as stated: a structured output event that carries
only an error status (no result payload) does not reset the idle timer —
after the event the timer is still unarmed and no timer was installed. -/
theorem c6_counterexample :
    (streamStep "family" "g@g.us" wInv
        (StreamItem.ev { result := none, isError := true, newSessionId := none })).idleTimer
      = none ∧
    (streamStep "family" "g@g.us" wInv
        (StreamItem.ev { result := none, isError := true, newSessionId := none })).actions
      = wInv.actions := by decide

/-- Witness for C6's amended statement at concrete inputs: a concrete trace
is termination-free, a result-carrying event arms a fresh timer, and a
timer firing from an armed state appends exactly the stdin close. -/
theorem c6_witness :
    Action.terminateWorker "g@g.us" ∉
      (processGroupMessages wCfg [wMsg] w1Stream wOkOutcome wSt "g@g.us").actions ∧
    (streamStep "family" "g@g.us" wInv
        (StreamItem.ev { result := some "hello", isError := false, newSessionId := none })).idleTimer
      = some wInv.nextGen ∧
    ((streamStep "family" "g@g.us"
        { wInv with idleTimer := some 0 } StreamItem.timerFire).actions
          = ({ wInv with idleTimer := some 0 } : InvState).actions ++ [Action.closeStdin "g@g.us"] ∨
     (streamStep "family" "g@g.us"
        { wInv with idleTimer := some 0 } StreamItem.timerFire).actions
          = ({ wInv with idleTimer := some 0 } : InvState).actions) :=
  ⟨c6_idle_timer_amended.1 wCfg [wMsg] w1Stream wOkOutcome wSt "g@g.us" "g@g.us",
   (c6_idle_timer_amended.2.1 "family" "g@g.us" wInv
      { result := some "hello", isError := false, newSessionId := none } "hello" rfl (by decide)).1,
   c6_idle_timer_amended.2.2 "family" "g@g.us" { wInv with idleTimer := some 0 }⟩

/-- Claim C8: the dispatch loop never terminates because of a per-tick
exception — every scheduled tick produces exactly one trace entry no matter
which store or queue failures are injected, and a tick body that throws is
caught, logged, and leaves the loop running with the state as of the throw
point. -/
theorem c8_loop_survives_tick_errors :
    (∀ (cfg : Config) (st : CoreState) (schedule : List (List NewMessage × TickEnv)),
      (runLoop cfg st schedule).2.length = schedule.length) ∧
    (∀ (cfg : Config) (db : List NewMessage) (env : TickEnv) (st st' : CoreState)
        (acts : List Action),
      tickBody cfg db env st = .error (st', acts) →
      tickCaught cfg db env st = (st', acts ++ [Action.logError "Error in message loop"])) := by
  constructor
  · intro cfg st schedule
    induction schedule generalizing st with
    | nil => simp [runLoop]
    | cons p rest ih =>
      obtain ⟨db, env⟩ := p
      simp [runLoop, ih]
  · intro cfg db env st st' acts h
    unfold tickCaught
    rw [h]

/-- Witness for C8: a two-tick schedule whose first tick's fetch throws
still yields two trace entries, and the throwing tick is logged and
absorbed. -/
theorem c8_witness :
    (runLoop wCfg wSt [([wMsg], wFetchFailEnv), ([wMsg], w2Env)]).2.length = 2 ∧
    tickCaught wCfg [wMsg] wFetchFailEnv wSt =
      (wSt, [] ++ [Action.logError "Error in message loop"]) :=
  ⟨c8_loop_survives_tick_errors.1 wCfg wSt [([wMsg], wFetchFailEnv), ([wMsg], w2Env)],
   c8_loop_survives_tick_errors.2 wCfg [wMsg] wFetchFailEnv wSt wSt [] rfl⟩

/-- Claim C4 is violated by the code (code_bug evidence): with one fresh
message and a store whose writes throw, the tick aborts — nothing is
persisted, the trace only logs the error — yet the in-memory global cursor
that the next tick reads has already been advanced from "" to "5", so the
skipped batch is not retried next tick as the specification requires. -/
theorem c4_code_bug_eval :
    wSt.lastTimestamp = "" ∧
    tickCaught wCfg [wMsg] w4Env wSt =
      ({ wSt with lastTimestamp := "5" }, [Action.logError "Error in message loop"]) ∧
    ({ wSt with lastTimestamp := "5" } : CoreState).persistedLastTimestamp = "" := by decide

end Nanoclaw
